import Mathlib

/-!
Verification development for the freqtrade-operator repository.

The Rust sources under `ft-operator-controller` and `ft-operator-webhook`
are embedded shallowly: each Rust function used by the properties below is
translated into an executable Lean definition of the same name (snake_case
kept where Lean allows it), and the properties are settled as theorems
about those definitions.

Modelling conventions:
* Rust `BTreeMap<String, String>` is modelled by `Smap`, an association
  list with insert-or-replace semantics (`Smap.insert`), matching the
  map semantics the code relies on (lookup and key-replacing extend).
* `serde_json::Value` is modelled by `Jval` (numbers restricted to `Int`,
  which is irrelevant to every property proved here).
* Kubernetes API types (`Deployment`, `Service`, ...) are modelled as
  structures carrying exactly the fields the operator constructs or
  compares; fields the operator treats as atomic values (it only ever
  compares them with `==`/`!=`) are modelled as single-field wrapper
  structures (`Affinity`, `Toleration`, ...).
* Fallible Rust code is modelled with `Except`/`Option`; a Rust `panic`
  (`unwrap` on `None`) is modelled by returning `none` from an
  `Option`-valued embedding.
* Wall-clock values (the RFC-3339 rollout timestamp, `lastUpdated`) are
  outside the model: the embeddings record that the corresponding patch
  is issued, not the timestamp text it carries.
-/

namespace FtOp

/-! ## String maps (Rust `BTreeMap<String, String>`) -/

/-- Association-list model of Rust `BTreeMap<String, String>`. -/
abbrev Smap := List (String × String)

namespace Smap

/-- The empty map. -/
def empty : Smap := []

/-- Key lookup (`BTreeMap::get`). -/
def get? (m : Smap) (k : String) : Option String :=
  (List.find? (fun p => p.1 = k) m).map (·.2)

/-- Key membership (`BTreeMap::contains_key`). -/
def hasKey (m : Smap) (k : String) : Bool :=
  List.any m (fun p => p.1 = k)

/-- Insert-or-replace (`BTreeMap::insert`): an existing binding for `k`
is replaced in place, otherwise the binding is appended. -/
def insert (m : Smap) (k v : String) : Smap :=
  if m.hasKey k then
    List.map (fun p => if p.1 = k then (k, v) else p) m
  else
    m ++ [(k, v)]

/-- `BTreeMap::extend`: insert every binding of `other` into `m`
(bindings of `other` win on key clashes). -/
def extend (m : Smap) (other : List (String × String)) : Smap :=
  other.foldl (fun acc p => acc.insert p.1 p.2) m

/-- Build a map from a binding list (`BTreeMap::from` / `collect`). -/
def ofList (l : List (String × String)) : Smap :=
  extend empty l

end Smap

/-! ## JSON values (Rust `serde_json::Value`) -/

/-- Model of `serde_json::Value`; numbers are restricted to `Int`
(no property below depends on numeric payloads). -/
inductive Jval where
  | null : Jval
  | bool : Bool → Jval
  | num : Int → Jval
  | str : String → Jval
  | arr : List Jval → Jval
  | obj : List (String × Jval) → Jval

instance : Inhabited Jval := ⟨.null⟩

namespace Jval

/-- `Value::get` with a string index: key lookup on objects, `None` on
every other variant (in particular on arrays, mirroring
`Index<&str> for Value`). -/
def get? : Jval → String → Option Jval
  | .obj kvs, k => (List.find? (fun p => p.1 = k) kvs).map (·.2)
  | _, _ => none

/-- Minimal JSON string escaping (quotes and backslashes; serde
additionally escapes control characters, which no property here
depends on). -/
def escapeStr (s : String) : String :=
  (s.replace "\\" "\\\\").replace "\"" "\\\""

mutual

/-- `serde_json::to_string` on the `Jval` model. -/
def render : Jval → String
  | .null => "null"
  | .bool b => cond b "true" "false"
  | .num n => toString n
  | .str s => "\"" ++ escapeStr s ++ "\""
  | .arr xs => "[" ++ renderArr xs ++ "]"
  | .obj kvs => "\x7b" ++ renderObj kvs ++ "\x7d"

/-- Comma-separated rendering of a JSON array body. -/
def renderArr : List Jval → String
  | [] => ""
  | [x] => render x
  | x :: y :: xs => render x ++ "," ++ renderArr (y :: xs)

/-- Comma-separated rendering of a JSON object body. -/
def renderObj : List (String × Jval) → String
  | [] => ""
  | [(k, v)] => "\"" ++ escapeStr k ++ "\":" ++ render v
  | (k, v) :: p :: kvs =>
      "\"" ++ escapeStr k ++ "\":" ++ render v ++ "," ++ renderObj (p :: kvs)

end

end Jval

/-! ## Kubernetes object model

Only the fields the operator constructs or compares are carried.
Types the drift detector treats as atomic (compared only with
`==`/`!=`, never inspected) are wrapper structures over `String`. -/

/-- `k8s_openapi` `Affinity`; the operator only compares it for equality. -/
structure Affinity where
  raw : String
deriving DecidableEq, Inhabited, Repr

/-- `k8s_openapi` `Toleration`; the operator only compares it for equality. -/
structure Toleration where
  raw : String
deriving DecidableEq, Inhabited, Repr

/-- `k8s_openapi` `PodSecurityContext`; compared only for equality. -/
structure PodSecurityContext where
  raw : String
deriving DecidableEq, Inhabited, Repr

/-- `k8s_openapi` `SecurityContext`; compared only for equality. -/
structure SecurityContext where
  raw : String
deriving DecidableEq, Inhabited, Repr

/-- `k8s_openapi` `ResourceRequirements`; compared only for equality. -/
structure ResourceRequirements where
  raw : String
deriving DecidableEq, Inhabited, Repr

/-- `k8s_openapi` `OwnerReference` (identity payload only). -/
structure OwnerReference where
  apiVersion : String
  kind : String
  name : String
  uid : String
deriving DecidableEq, Inhabited, Repr

/-- `k8s_openapi` `ObjectMeta`, restricted to the fields the operator
sets or reads. -/
structure ObjectMeta where
  name : Option String := none
  namespacE : Option String := none
  labels : Option Smap := none
  annotations : Option Smap := none
  ownerReferences : Option (List OwnerReference) := none
deriving DecidableEq, Inhabited, Repr

/-- `k8s_openapi` `LocalObjectReference`. -/
structure LocalObjectReference where
  name : String
deriving DecidableEq, Inhabited, Repr

/-- `k8s_openapi` `SecretKeySelector` (fields the operator sets). -/
structure SecretKeySelector where
  name : String
  key : String
deriving DecidableEq, Inhabited, Repr

/-- `k8s_openapi` `EnvVarSource` (only `secret_key_ref` is ever set). -/
structure EnvVarSource where
  secretKeyRef : Option SecretKeySelector := none
deriving DecidableEq, Inhabited, Repr

/-- `k8s_openapi` `EnvVar`. -/
structure EnvVar where
  name : String
  value : Option String := none
  valueFrom : Option EnvVarSource := none
deriving DecidableEq, Inhabited, Repr

/-- `k8s_openapi` `ContainerPort` (fields the operator sets or compares). -/
structure ContainerPort where
  containerPort : Int
  name : Option String := none
  protocol : Option String := none
deriving DecidableEq, Inhabited, Repr

/-- `k8s_openapi` `VolumeMount` (fields the operator sets; compared for
equality). -/
structure VolumeMount where
  name : String
  mountPath : String
  readOnly : Option Bool := none
  subPath : Option String := none
deriving DecidableEq, Inhabited, Repr

/-- `k8s_openapi` `KeyToPath`. -/
structure KeyToPath where
  key : String
  path : String
deriving DecidableEq, Inhabited, Repr

/-- `k8s_openapi` `ConfigMapVolumeSource` (fields constructed or
compared by `volumes_are_equal`). -/
structure ConfigMapVolumeSource where
  name : String
  items : Option (List KeyToPath) := none
  optional : Option Bool := none
  defaultMode : Option Int := none
deriving DecidableEq, Inhabited, Repr

/-- `k8s_openapi` `PersistentVolumeClaimVolumeSource`. -/
structure PersistentVolumeClaimVolumeSource where
  claimName : String
deriving DecidableEq, Inhabited, Repr

/-- `k8s_openapi` `Volume`, restricted to the sources the operator
constructs (`config_map`, `persistent_volume_claim`). -/
structure Volume where
  name : String
  configMap : Option ConfigMapVolumeSource := none
  persistentVolumeClaim : Option PersistentVolumeClaimVolumeSource := none
deriving DecidableEq, Inhabited, Repr

/-- `k8s_openapi` `Container` (fields set or compared by the operator). -/
structure Container where
  name : String
  image : Option String := none
  imagePullPolicy : Option String := none
  command : Option (List String) := none
  env : Option (List EnvVar) := none
  ports : Option (List ContainerPort) := none
  volumeMounts : Option (List VolumeMount) := none
  resources : Option ResourceRequirements := none
  securityContext : Option SecurityContext := none
deriving DecidableEq, Inhabited, Repr

/-- `k8s_openapi` `PodSpec` (fields set or compared by the operator). -/
structure PodSpec where
  containers : List Container
  initContainers : Option (List Container) := none
  volumes : Option (List Volume) := none
  nodeSelector : Option Smap := none
  affinity : Option Affinity := none
  tolerations : Option (List Toleration) := none
  securityContext : Option PodSecurityContext := none
  imagePullSecrets : Option (List LocalObjectReference) := none
deriving DecidableEq, Inhabited, Repr

/-- `k8s_openapi` `PodTemplateSpec`. -/
structure PodTemplateSpec where
  metadata : Option ObjectMeta := none
  spec : Option PodSpec := none
deriving DecidableEq, Inhabited, Repr

/-- `k8s_openapi` `LabelSelector` (only `match_labels` is used). -/
structure LabelSelector where
  matchLabels : Option Smap := none
deriving DecidableEq, Inhabited, Repr

/-- `k8s_openapi` `DeploymentSpec` (fields set or compared). -/
structure DeploymentSpec where
  replicas : Option Int := none
  selector : LabelSelector := {}
  template : PodTemplateSpec := {}
deriving DecidableEq, Inhabited, Repr

/-- `k8s_openapi` `DeploymentCondition` (fields read by the phase
derivation). -/
structure DeploymentCondition where
  typE : String
  status : String
deriving DecidableEq, Inhabited, Repr

/-- `k8s_openapi` `DeploymentStatus` (only `conditions` is read). -/
structure DeploymentStatus where
  conditions : Option (List DeploymentCondition) := none
deriving DecidableEq, Inhabited, Repr

/-- `k8s_openapi` `Deployment`. -/
structure Deployment where
  metadata : ObjectMeta := {}
  spec : Option DeploymentSpec := none
  status : Option DeploymentStatus := none
deriving DecidableEq, Inhabited, Repr

/-- `k8s_openapi` `ConfigMap`. -/
structure ConfigMap where
  metadata : ObjectMeta := {}
  data : Option Smap := none
deriving DecidableEq, Inhabited, Repr

/-- `k8s_openapi` `VolumeResourceRequirements` (only `requests` is set).
`Quantity` is modelled as its `String` payload. -/
structure VolumeResourceRequirements where
  requests : Option Smap := none
deriving DecidableEq, Inhabited, Repr

/-- `k8s_openapi` `PersistentVolumeClaimSpec` (fields set or compared). -/
structure PersistentVolumeClaimSpec where
  accessModes : Option (List String) := none
  resources : Option VolumeResourceRequirements := none
  storageClassName : Option String := none
deriving DecidableEq, Inhabited, Repr

/-- `k8s_openapi` `PersistentVolumeClaim`. -/
structure PersistentVolumeClaim where
  metadata : ObjectMeta := {}
  spec : Option PersistentVolumeClaimSpec := none
deriving DecidableEq, Inhabited, Repr

/-- `IntOrString` from `k8s_openapi`. -/
inductive IntOrString where
  | int : Int → IntOrString
  | str : String → IntOrString
deriving DecidableEq, Inhabited, Repr

/-- `k8s_openapi` `ServicePort` (fields set or compared). -/
structure ServicePort where
  name : Option String := none
  port : Int
  targetPort : Option IntOrString := none
  protocol : Option String := none
deriving DecidableEq, Inhabited, Repr

/-- `k8s_openapi` `ServiceSpec` (fields set or compared). -/
structure ServiceSpec where
  typE : Option String := none
  selector : Option Smap := none
  ports : Option (List ServicePort) := none
deriving DecidableEq, Inhabited, Repr

/-- `k8s_openapi` `Service`. -/
structure Service where
  metadata : ObjectMeta := {}
  spec : Option ServiceSpec := none
deriving DecidableEq, Inhabited, Repr

/-! ## Hub resource model (`crd/hub/bot.rs`, `crd/hub/common.rs`)

Field defaults mirror the `Default` impls of the hub types. -/

/-- `SecretItem` (`crd/hub/common.rs`): tagged union of an inline value
and a Kubernetes `Secret` key reference. -/
inductive SecretItem where
  | value : String → SecretItem
  | secretKeyRef : SecretKeySelector → SecretItem
deriving DecidableEq, Inhabited, Repr

/-- `ApiSecrets` from the hub model. -/
structure ApiSecrets where
  username : Option SecretItem := none
  password : Option SecretItem := none
  wsToken : Option SecretItem := none
  jwtSecretKey : Option SecretItem := none
deriving DecidableEq, Inhabited, Repr

/-- `TelegramSecrets` from the hub model. -/
structure TelegramSecrets where
  token : Option SecretItem := none
  chatId : Option String := none
deriving DecidableEq, Inhabited, Repr

/-- `ExchangeSecrets` from the hub model. -/
structure ExchangeSecrets where
  key : Option SecretItem := none
  secret : Option SecretItem := none
  password : Option SecretItem := none
  uid : Option SecretItem := none
deriving DecidableEq, Inhabited, Repr

/-- `BotSecrets` from the hub model. -/
structure BotSecrets where
  exchange : Option ExchangeSecrets := none
  api : Option ApiSecrets := none
  telegram : Option TelegramSecrets := none
deriving DecidableEq, Inhabited, Repr

/-- `BotStrategySpec` from the hub model. -/
structure BotStrategySpec where
  name : String
  configMapName : Option String := none
  source : Option String := none
deriving DecidableEq, Inhabited, Repr

/-- `BotModelSpec` from the hub model. -/
structure BotModelSpec where
  name : String := "LightGBMRegressor"
  configMapName : Option String := none
  source : Option String := none
deriving DecidableEq, Inhabited, Repr

/-- `BotImageSpec` from the hub model (its `Default` sets repository and
tag). -/
structure BotImageSpec where
  repository : Option String := some "freqtradeorg/freqtrade"
  tag : Option String := some "stable"
  pullPolicy : Option String := none
  pullSecrets : Option (List String) := none
deriving DecidableEq, Inhabited, Repr

/-- `BotApiSpec` from the hub model (`Default`: enabled on
`0.0.0.0:8080`). -/
structure BotApiSpec where
  enabled : Bool := true
  host : String := "0.0.0.0"
  port : Nat := 8080
deriving DecidableEq, Inhabited, Repr

/-- `BotServicePort` from the hub model. -/
structure BotServicePort where
  name : String
  port : Nat
  targetPort : String
deriving DecidableEq, Inhabited, Repr

/-- `BotServiceSpec` from the hub model (`Default`: `ClusterIP`, no
ports). -/
structure BotServiceSpec where
  serviceType : String := "ClusterIP"
  annotations : Option Smap := none
  labels : Option Smap := none
  ports : List BotServicePort := []
deriving DecidableEq, Inhabited, Repr

/-- `BotServiceSpec::ensure_api_port`: append an `api`-named port
targeting the `api` container port unless some port already carries the
name `api`. -/
def BotServiceSpec.ensure_api_port (s : BotServiceSpec) (apiPort : Nat) :
    BotServiceSpec :=
  if s.ports.any (fun p => p.name = "api") then s
  else { s with ports := s.ports ++ [⟨"api", apiPort, "api"⟩] }

/-- `BotPvcSpec` from the hub model (`Default`: enabled, 1Gi). -/
structure BotPvcSpec where
  enabled : Bool := true
  annotations : Option Smap := none
  labels : Option Smap := none
  storageClass : Option String := none
  size : String := "1Gi"
deriving DecidableEq, Inhabited, Repr

/-- `BotDeploymentSpec` from the hub model. -/
structure BotDeploymentSpec where
  command : Option (List String) := none
  annotations : Option Smap := none
  labels : Option Smap := none
  nodeSelector : Option Smap := none
  resources : Option ResourceRequirements := none
  affinity : Option Affinity := none
  tolerations : Option (List Toleration) := none
  podSecurityContext : Option PodSecurityContext := none
  securityContext : Option SecurityContext := none
  containers : List Container := []
  initContainers : List Container := []
  volumes : List Volume := []
  volumeMounts : List VolumeMount := []
  env : List EnvVar := []
deriving DecidableEq, Inhabited, Repr

/-- `BotSpec` from the hub model (serde default for `database` is the
embedded sqlite URL). -/
structure BotSpec where
  exchange : String
  database : String := "sqlite:///database.db"
  config : Option Jval := none
  strategy : BotStrategySpec
  model : Option BotModelSpec := none
  image : BotImageSpec := {}
  secrets : BotSecrets := {}
  api : BotApiSpec := {}
  service : BotServiceSpec := {}
  pvc : BotPvcSpec := {}
  deployment : BotDeploymentSpec := {}
deriving Inhabited

/-- `BotStatus` from the hub model; `last_updated` is wall-clock and
outside the model. -/
structure BotStatus where
  phase : String
deriving DecidableEq, Inhabited, Repr

/-- Hub `Bot`. -/
structure Bot where
  metadata : ObjectMeta := {}
  spec : BotSpec
  status : Option BotStatus := none
deriving Inhabited

/-- `BotPhase` from the hub model. -/
inductive BotPhase where
  | pending
  | running
  | error
  | deleting
deriving DecidableEq, Inhabited, Repr

/-- `Display for BotPhase` (`to_string`). -/
def BotPhase.toStr : BotPhase → String
  | .pending => "pending"
  | .running => "running"
  | .error => "error"
  | .deleting => "deleting"

/-- Operator configuration (`ft-operator-common/src/config.rs`), reduced
to the fields the controller reads. -/
structure AppConfig where
  defaultImageRepo : String := "freqtradeorg/freqtrade"
  defaultImageTag : String := "stable"
deriving DecidableEq, Inhabited, Repr

/-! ## Phase derivation (`impl From<DeploymentStatus> for BotPhase`) -/

/-- `From<DeploymentStatus> for BotPhase` (`controller/bot.rs`):
`Error` when some condition is `Progressing`/`False`, else `Running`
when some condition is `Available`/`True`, else `Pending`; absent
conditions give `Pending`. -/
def BotPhase.from_deployment_status (status : DeploymentStatus) : BotPhase :=
  match status.conditions with
  | some conditions =>
      if conditions.any (fun c => c.typE = "Progressing" && c.status = "False") then
        .error
      else if conditions.any (fun c => c.typE = "Available" && c.status = "True") then
        .running
      else
        .pending
  | none => .pending

/-! ## Resource projection (`FromHub<Bot>` impls, `controller/bot.rs`) -/

/-- The three identifying labels, all set to the Bot's name. -/
def identifying_labels (name : String) : List (String × String) :=
  [("freqtrade.io/bot-name", name),
   ("app.kubernetes.io/name", name),
   ("app.kubernetes.io/instance", name)]

/-- The three metadata labels merged into Deployment labels. -/
def metadata_labels : List (String × String) :=
  [("app.kubernetes.io/component", "bot"),
   ("app.kubernetes.io/part-of", "freqtrade"),
   ("app.kubernetes.io/managed-by", "freqtrade-operator")]

/-- `create_env_var` (`controller/bot.rs`): a name-only or plain-valued
environment variable. -/
def create_env_var (name : String) (value : Option String) : EnvVar :=
  { name := name, value := value }

/-- `create_secret_env_var` (`controller/bot.rs`): inline secret values
become plain values; secret key references become `value_from`
references. -/
def create_secret_env_var (name : String) (secretItem : Option SecretItem) :
    EnvVar :=
  { name := name
    value := match secretItem with
      | some (.value v) => some v
      | _ => none
    valueFrom := match secretItem with
      | some (.secretKeyRef r) => some { secretKeyRef := some r }
      | _ => none }

/-- `serde_json::to_string(&bot.spec.config)`: a `None` config serialises
to `"null"`. -/
def renderBotConfig : Option Jval → String
  | none => "null"
  | some v => v.render

/-- `FromHub<Bot> for ConfigMap::from_hub`: `config.json` always,
`strategy.py` when no external strategy ConfigMap is referenced,
`model.py` when a model source is inlined. -/
def ConfigMap.from_hub (bot : Bot) (name namespacE : String)
    (ownerRef : OwnerReference) (_cfg : AppConfig) : ConfigMap :=
  let strategy := bot.spec.strategy
  let model := bot.spec.model
  { metadata :=
      { name := some name
        namespacE := some namespacE
        ownerReferences := some [ownerRef] }
    data := some <| Smap.ofList <|
      [("config.json", renderBotConfig bot.spec.config)]
      ++ (if strategy.configMapName.isNone then
            [("strategy.py", strategy.source.getD "")] else [])
      ++ (match model.bind (·.source) with
          | some source => [("model.py", source)]
          | none => []) }

/-- `FromHub<Bot> for PersistentVolumeClaim::from_hub`. -/
def PersistentVolumeClaim.from_hub (bot : Bot) (name namespacE : String)
    (ownerRef : OwnerReference) (_cfg : AppConfig) : PersistentVolumeClaim :=
  let pvc := bot.spec.pvc
  { metadata :=
      { name := some name
        namespacE := some namespacE
        ownerReferences := some [ownerRef]
        annotations := pvc.annotations
        labels := pvc.labels }
    spec := some
      { accessModes := some ["ReadWriteOnce"]
        resources := some { requests := some (Smap.ofList [("storage", pvc.size)]) }
        storageClassName := pvc.storageClass } }

/-- Label map used for Deployment metadata and pod-template labels:
user labels (when present) extended by the identifying and metadata
labels, which therefore always win. -/
def deployment_labels (userLabels : Option Smap) (name : String) : Smap :=
  match userLabels with
  | none => Smap.ofList (identifying_labels name ++ metadata_labels)
  | some labels =>
      (labels.extend (identifying_labels name)).extend metadata_labels

/-- The default freqtrade command, extended with `--freqaimodel` when a
model is declared. -/
def default_command (model : Option BotModelSpec) : List String :=
  ["freqtrade", "trade", "--config", "/etc/freqtrade/config.json"]
  ++ (match model with
      | some m => ["--freqaimodel", m.name]
      | none => [])

/-- `FromHub<Bot> for Deployment::from_hub`. -/
def Deployment.from_hub (bot : Bot) (name namespacE : String)
    (ownerRef : OwnerReference) (cfg : AppConfig) : Deployment :=
  let image := bot.spec.image
  let api := bot.spec.api
  let strategy := bot.spec.strategy
  let model := bot.spec.model
  let pvc := bot.spec.pvc
  let deployment := bot.spec.deployment
  let secrets := bot.spec.secrets
  let imageRepo := image.repository.getD cfg.defaultImageRepo
  let imageTag := image.tag.getD cfg.defaultImageTag
  let defaultCmd := default_command model
  { metadata :=
      { name := some name
        namespacE := some namespacE
        ownerReferences := some [ownerRef]
        annotations := deployment.annotations
        labels := some (deployment_labels deployment.labels name) }
    spec := some
      { replicas := some 1
        selector := { matchLabels := some (Smap.ofList (identifying_labels name)) }
        template :=
          { metadata := some
              { annotations := deployment.annotations
                labels := some (deployment_labels deployment.labels name) }
            spec := some
              { imagePullSecrets :=
                  image.pullSecrets.map (List.map fun s => ⟨s⟩)
                containers :=
                  [{ name := name
                     image := some (imageRepo ++ ":" ++ imageTag)
                     imagePullPolicy := image.pullPolicy
                     command := some (match deployment.command with
                       | some cmd => cmd.flatMap fun part =>
                           if part = "$CMD" then defaultCmd else [part]
                       | none => defaultCmd)
                     env := some <|
                       [create_env_var "FREQTRADE__STRATEGY" (some strategy.name),
                        create_env_var "FREQTRADE__STRATEGY_PATH" (some "/etc/freqtrade"),
                        create_env_var "FREQTRADE__FREQAIMODEL_PATH" (some "/etc/freqtrade"),
                        create_env_var "FREQTRADE__DB_URL" (some bot.spec.database),
                        create_env_var "FREQTRADE__BOT_NAME" (some name),
                        create_env_var "FREQTRADE__API_SERVER__ENABLED"
                          (some (cond api.enabled "true" "false")),
                        create_env_var "FREQTRADE__API_SERVER__LISTEN_IP_ADDRESS"
                          (some api.host),
                        create_env_var "FREQTRADE__API_SERVER__LISTEN_PORT"
                          (some (toString api.port)),
                        create_env_var "FREQTRADE__EXCHANGE__NAME"
                          (some bot.spec.exchange),
                        (match secrets.telegram with
                         | none => create_env_var "FREQTRADE__TELEGRAM__CHAT_ID" none
                         | some t => create_env_var "FREQTRADE__TELEGRAM__CHAT_ID"
                             (some (t.chatId.getD ""))),
                        (match secrets.api with
                         | none => create_env_var "FREQTRADE__API_SERVER__USERNAME" none
                         | some a => create_secret_env_var "FREQTRADE__API_SERVER__USERNAME" a.username),
                        (match secrets.api with
                         | none => create_env_var "FREQTRADE__API_SERVER__PASSWORD" none
                         | some a => create_secret_env_var "FREQTRADE__API_SERVER__PASSWORD" a.password),
                        (match secrets.api with
                         | none => create_env_var "FREQTRADE__API_SERVER__WS_TOKEN" none
                         | some a => create_secret_env_var "FREQTRADE__API_SERVER__WS_TOKEN" a.wsToken),
                        (match secrets.api with
                         | none => create_env_var "FREQTRADE__API_SERVER__JWT_SECRET_KEY" none
                         | some a => create_secret_env_var "FREQTRADE__API_SERVER__JWT_SECRET_KEY" a.jwtSecretKey),
                        (match secrets.telegram with
                         | none => create_env_var "FREQTRADE__TELEGRAM__TOKEN" none
                         | some t => create_secret_env_var "FREQTRADE__TELEGRAM__TOKEN" t.token),
                        (match secrets.exchange with
                         | none => create_env_var "FREQTRADE__EXCHANGE__KEY" none
                         | some e => create_secret_env_var "FREQTRADE__EXCHANGE__KEY" e.key),
                        (match secrets.exchange with
                         | none => create_env_var "FREQTRADE__EXCHANGE__SECRET" none
                         | some e => create_secret_env_var "FREQTRADE__EXCHANGE__SECRET" e.secret),
                        (match secrets.exchange with
                         | none => create_env_var "FREQTRADE__EXCHANGE__PASSWORD" none
                         | some e => create_secret_env_var "FREQTRADE__EXCHANGE__PASSWORD" e.password),
                        (match secrets.exchange with
                         | none => create_env_var "FREQTRADE__EXCHANGE__UID" none
                         | some e => create_secret_env_var "FREQTRADE__EXCHANGE__UID" e.uid)]
                       ++ (match model with
                           | some _ => [create_env_var "FREQTRADE__FREQAI__ENABLED" (some "true")]
                           | none => [])
                       ++ deployment.env
                     ports := some [{ containerPort := (api.port : Int)
                                      name := some "api" }]
                     volumeMounts := some <|
                       [{ name := "config", mountPath := "/etc/freqtrade" }]
                       ++ deployment.volumeMounts }]
                  ++ deployment.containers
                initContainers :=
                  if deployment.initContainers = [] then none
                  else some deployment.initContainers
                volumes := some <|
                  [{ name := "config"
                     configMap := some
                       { name := name
                         items := some <|
                           [{ key := "config.json", path := "config.json" }]
                           ++ (if strategy.configMapName.isNone then
                                 [{ key := "strategy.py", path := "strategy.py" }]
                               else [])
                           ++ (match model.filter
                                 (fun m => m.source.isSome && m.configMapName.isNone) with
                               | some _ => [{ key := "model.py", path := "model.py" }]
                               | none => []) } }]
                  ++ (if pvc.enabled then
                        [{ name := "user-data"
                           persistentVolumeClaim := some { claimName := name } }]
                      else [])
                  ++ (match strategy.configMapName with
                      | some cmName => [{ name := "strategy"
                                          configMap := some { name := cmName } }]
                      | none => [])
                  ++ (match model.bind (·.configMapName) with
                      | some cmName => [{ name := "model"
                                          configMap := some { name := cmName } }]
                      | none => [])
                  ++ deployment.volumes } } } }

/-- `FromHub<Bot> for Service::from_hub`: user-declared ports with an
`api` port ensured when the API is enabled; the selector is the
identifying label map. -/
def Service.from_hub (bot : Bot) (name namespacE : String)
    (ownerRef : OwnerReference) (_cfg : AppConfig) : Service :=
  let api := bot.spec.api
  let service :=
    if api.enabled then bot.spec.service.ensure_api_port api.port
    else bot.spec.service
  { metadata :=
      { name := some name
        namespacE := some namespacE
        ownerReferences := some [ownerRef]
        annotations := service.annotations
        labels := service.labels }
    spec := some
      { typE := some service.serviceType
        selector := some (Smap.ofList (identifying_labels name))
        ports := some (service.ports.map fun p =>
          { name := some p.name
            port := (p.port : Int)
            targetPort := some (.str p.targetPort) }) } }

/-! ## Drift detection (`ResourceDrift<Bot>` impls, `controller/bot.rs`) -/

/-- Stable insertion of `x` into a list sorted by `key` (helper for the
embedding of Rust's stable `sort_by`). -/
def insertSortedBy (key : α → String) (x : α) : List α → List α
  | [] => [x]
  | y :: ys =>
      if key x ≤ key y then x :: y :: ys else y :: insertSortedBy key x ys

/-- Stable sort by a string key (Rust `sort_by(|a, b| key(a).cmp(&key(b)))`). -/
def sortByKey (key : α → String) (l : List α) : List α :=
  l.foldr (insertSortedBy key) []

/-- `compare_container_ports` (`controller/bot.rs`): positional
comparison of `(container_port, name, protocol∣"TCP")` after a length
check; one-sided `None` is drift. Returns `true` on difference. -/
def compare_container_ports
    (selfPorts otherPorts : Option (List ContainerPort)) : Bool :=
  match selfPorts, otherPorts with
  | some selfPorts, some otherPorts =>
      if selfPorts.length ≠ otherPorts.length then true
      else (selfPorts.zip otherPorts).any fun p =>
        p.1.containerPort != p.2.containerPort
        || p.1.name != p.2.name
        || (p.1.protocol.getD "TCP") != (p.2.protocol.getD "TCP")
  | none, none => false
  | _, _ => true

/-- `compare_env_vars` (`controller/bot.rs`): equal length and equality
after sorting both lists by variable name. Returns `true` on
difference. -/
def compare_env_vars (selfVars otherVars : Option (List EnvVar)) : Bool :=
  match selfVars, otherVars with
  | some selfVars, some otherVars =>
      if selfVars.length ≠ otherVars.length then true
      else sortByKey (·.name) selfVars != sortByKey (·.name) otherVars
  | none, none => false
  | _, _ => true

/-- `volumes_are_equal` (`controller/bot.rs`): structural equality,
except that for ConfigMap-backed volumes a `default_mode` of 420 equals
an unset `default_mode`; when both `config_map` fields are present,
only the ConfigMap source fields are compared. -/
def volumes_are_equal (selfVol otherVol : Volume) : Bool :=
  if selfVol = otherVol then true
  else
    match selfVol.configMap, otherVol.configMap with
    | some selfConfig, some otherConfig =>
        (selfConfig.name == otherConfig.name
          && selfConfig.items == otherConfig.items
          && selfConfig.optional == otherConfig.optional)
        && (match selfConfig.defaultMode, otherConfig.defaultMode with
            | none, some m => m == 420
            | some m, none => m == 420
            | m1, m2 => m1 == m2)
    | none, none => true
    | _, _ => false

/-- `compare_volumes` (`controller/bot.rs`): equal length, then
pairwise `volumes_are_equal` after sorting both sides by volume name.
Returns `true` on difference. -/
def compare_volumes (selfVols otherVols : Option (List Volume)) : Bool :=
  match selfVols, otherVols with
  | some selfVols, some otherVols =>
      if selfVols.length ≠ otherVols.length then true
      else ((sortByKey (·.name) selfVols).zip (sortByKey (·.name) otherVols)).any
        fun p => !volumes_are_equal p.1 p.2
  | none, none => false
  | _, _ => true

/-- `ResourceDrift<Bot> for ConfigMap::has_drifted`: data maps compared
by equality. -/
def ConfigMap.has_drifted (selfCM other : ConfigMap) : Bool :=
  selfCM.data != other.data

/-- `ResourceDrift<Bot> for PersistentVolumeClaim::has_drifted`:
storage class compared only when set on both sides; resource requests
compared by equality; one-sided spec is drift. -/
def PersistentVolumeClaim.has_drifted
    (selfPvc other : PersistentVolumeClaim) : Bool :=
  match selfPvc.spec, other.spec with
  | some spec, some otherSpec =>
      (spec.storageClassName.isSome && otherSpec.storageClassName.isSome
        && spec.storageClassName != otherSpec.storageClassName)
      || spec.resources != otherSpec.resources
  | none, some _ => true
  | some _, none => true
  | none, none => false

/-- The pod spec reached through `spec.template.spec`. -/
def Deployment.podSpec (d : Deployment) : Option PodSpec :=
  d.spec.bind (fun spec => spec.template.spec)

/-- The per-container checks of `Deployment::has_drifted`'s positional
container loop. -/
def container_pair_drift (selfC otherC : Container) : Bool :=
  (selfC.image != otherC.image
    || selfC.command != otherC.command
    || compare_container_ports selfC.ports otherC.ports)
  || ((selfC.imagePullPolicy.isSome && otherC.imagePullPolicy.isSome)
      && selfC.imagePullPolicy != otherC.imagePullPolicy)
  || compare_env_vars selfC.env otherC.env
  || selfC.volumeMounts != otherC.volumeMounts
  || (selfC.resources.isSome && otherC.resources.isSome
      && selfC.resources != otherC.resources)

/-- `ResourceDrift<Bot> for Deployment::has_drifted`: replicas,
positional container comparison, volume multiset comparison, and the
asymmetric pod-level field rules. -/
def Deployment.has_drifted (selfD other : Deployment) : Bool :=
  let selfContainers := (selfD.podSpec.map (·.containers)).getD []
  let otherContainers := (other.podSpec.map (·.containers)).getD []
  let selfVolumes := (selfD.podSpec.map (·.volumes)).getD none
  let otherVolumes := (other.podSpec.map (·.volumes)).getD none
  (selfD.spec.bind (·.replicas) != other.spec.bind (·.replicas))
  || (selfContainers.length ≠ otherContainers.length)
  || (selfContainers.zip otherContainers).any
       (fun p => container_pair_drift p.1 p.2)
  || compare_volumes selfVolumes otherVolumes
  || (match selfD.podSpec.bind (·.nodeSelector),
            other.podSpec.bind (·.nodeSelector) with
      | some selfNodeSelector, some otherNodeSelector =>
          selfNodeSelector != otherNodeSelector
      | _, _ => false)
  || (selfD.podSpec.map (·.affinity) != other.podSpec.map (·.affinity))
  || (selfD.podSpec.map (·.tolerations) != other.podSpec.map (·.tolerations))
  || (match selfD.podSpec.bind (·.securityContext),
            other.podSpec.bind (·.securityContext) with
      | some left, some right => left != right
      | _, _ => false)
  || ((selfD.podSpec.map (fun ps => ps.containers.map (·.securityContext))).getD []
        != (other.podSpec.map (fun ps => ps.containers.map (·.securityContext))).getD [])
  || (selfD.podSpec.map (·.imagePullSecrets)
        != other.podSpec.map (·.imagePullSecrets))

/-- `ResourceDrift<Bot> for Service::has_drifted`: service type,
selector, and a positional port walk over `zip` (note: no length check
on the port lists). -/
def Service.has_drifted (selfS other : Service) : Bool :=
  (selfS.spec.bind (·.typE) != other.spec.bind (·.typE))
  || (selfS.spec.bind (·.selector) != other.spec.bind (·.selector))
  || (((selfS.spec.bind (·.ports)).getD []).zip
        ((other.spec.bind (·.ports)).getD [])).any fun p =>
      p.1.port != p.2.port
      || p.1.name != p.2.name
      || p.1.targetPort != p.2.targetPort
      || (p.1.protocol.getD "TCP") != (p.2.protocol.getD "TCP")

/-! ## Apply-path reconcile (`reconcile_bot`, `controller/bot.rs`)

The apply path is embedded as a pure function from the observed cluster
state to the ordered list of mutating API calls it issues.  A Rust panic
(`unwrap` on `None`) is modelled by the function returning `none`.  The
server side of each call is environment-controlled: `applied` is the
Deployment the API server returns from the server-side apply, and
`hashResult` is the outcome of `compute_object_hash` over the projected
ConfigMap data (a BLAKE3 hash of canonicalised JSON, kept abstract — the
code only ever compares it to the stored annotation value). -/

/-- The key of the config-hash annotation
(`bots.freqtrade.io/config-hash` in `controller/bot.rs`). -/
def configHashKey : String := "bots.freqtrade.io/config-hash"

/-- One mutating API call issued by the apply path, in issue order. -/
inductive RAction where
  | patchStatus (phase : BotPhase)
  | applyConfigMap (cm : ConfigMap)
  | applyPvc (pvc : PersistentVolumeClaim)
  | deletePvc
  | applyDeployment (d : Deployment)
  | patchConfigHash (hash : String)
  | rolloutDeployment
  | applyService (s : Service)
  | deleteService
  | requeue (secs : Nat)
deriving DecidableEq, Inhabited, Repr

/-- The observed cluster state and server-controlled responses one
apply-path reconcile runs against. -/
structure ClusterState where
  configMap : Option ConfigMap := none
  pvc : Option PersistentVolumeClaim := none
  deployment : Option Deployment := none
  service : Option Service := none
  /-- The Deployment the API server returns when the apply path issues
  the Deployment server-side apply. -/
  applied : Deployment := {}
  /-- Outcome of `compute_object_hash(&config_map_object.data)`. -/
  hashResult : Except String String := .ok ""

/-- `current_config_hash`: the `bots.freqtrade.io/config-hash`
annotation of the existing Deployment, empty when absent. -/
def current_config_hash (st : ClusterState) : String :=
  (((st.deployment.bind (fun d => d.metadata.annotations)).bind
      (fun a => a.get? configHashKey))).getD ""

/-- `incoming_config_hash`: the computed hash, with a hash error
(`map_err(..).unwrap_or_default()`) collapsing to the empty string. -/
def incoming_config_hash (st : ClusterState) : String :=
  st.hashResult.toOption.getD ""

/-- Status patch issued when the Bot has no status yet
(lines 959–964 of `controller/bot.rs`). -/
def status_init_acts (hub : Bot) : List RAction :=
  if hub.status.isNone then [.patchStatus .pending] else []

/-- ConfigMap apply when missing or drifted. -/
def config_map_acts (existing : Option ConfigMap) (obj : ConfigMap) :
    List RAction :=
  match existing with
  | none => [.applyConfigMap obj]
  | some cm => if cm.has_drifted obj then [.applyConfigMap obj] else []

/-- PVC apply when enabled and missing or drifted; delete when disabled
but present. -/
def pvc_acts (enabled : Bool) (existing : Option PersistentVolumeClaim)
    (obj : PersistentVolumeClaim) : List RAction :=
  if enabled then
    match existing with
    | none => [.applyPvc obj]
    | some p => if p.has_drifted obj then [.applyPvc obj] else []
  else
    match existing with
    | some _ => [.deletePvc]
    | none => []

/-- Deployment apply when missing or drifted; returns the Deployment
variable as the code leaves it (the server-applied copy after an apply,
the fetched copy otherwise). -/
def deployment_step (existing : Option Deployment) (obj applied : Deployment) :
    Option Deployment × List RAction :=
  match existing with
  | none => (some applied, [.applyDeployment obj])
  | some d =>
      if d.has_drifted obj then (some applied, [.applyDeployment obj])
      else (some d, [])

/-- Lines 1005–1022 of `controller/bot.rs`: on hash mismatch, patch the
hash annotation, and additionally issue the rollout patch (the
`kube.kubernetes.io/restartedAt` pod-template patch of
`utils.rs::rollout`; its RFC-3339 timestamp text is wall-clock and
outside the model) when the stored hash is non-empty. -/
def hash_acts (current incoming : String) : List RAction :=
  if current ≠ incoming then
    [.patchConfigHash incoming]
    ++ (if current ≠ "" then [.rolloutDeployment] else [])
  else []

/-- Lines 1024–1062 of `controller/bot.rs`: re-derive the phase from
the Deployment status and patch the Bot status when the phase label
differs (or the Bot had no status).  The code unwraps both the
Deployment variable and its status sub-resource; either being `None` is
a panic, modelled as `none`. -/
def status_update_acts (hubStatus : Option BotStatus)
    (deployment : Option Deployment) : Option (List RAction) :=
  match deployment with
  | none => none
  | some d =>
      match hubStatus, d.status with
      | none, none => none
      | none, some ds => some [.patchStatus (BotPhase.from_deployment_status ds)]
      | some _, none => none
      | some s, some ds =>
          if (BotPhase.from_deployment_status ds).toStr ≠ s.phase then
            some [.patchStatus (BotPhase.from_deployment_status ds)]
          else some []

/-- Service apply when the API is enabled and the Service is missing or
drifted; delete when disabled but present. -/
def service_acts (enabled : Bool) (existing : Option Service) (obj : Service) :
    List RAction :=
  if enabled then
    match existing with
    | none => [.applyService obj]
    | some s => if s.has_drifted obj then [.applyService obj] else []
  else
    match existing with
    | some _ => [.deleteService]
    | none => []

/-- `reconcile_bot`, apply path (`controller/bot.rs`): project the four
dependents, read the hashes, and issue the apply/patch/delete calls in
source order, ending with the 30-second requeue.  `none` models the
panic in the status re-derivation. -/
def reconcile_bot (cfg : AppConfig) (hub : Bot) (name namespacE : String)
    (ownerRef : OwnerReference) (st : ClusterState) : Option (List RAction) :=
  let config_map_object := ConfigMap.from_hub hub name namespacE ownerRef cfg
  let deployment_object := Deployment.from_hub hub name namespacE ownerRef cfg
  let service_object := Service.from_hub hub name namespacE ownerRef cfg
  let pvc_object := PersistentVolumeClaim.from_hub hub name namespacE ownerRef cfg
  let current := current_config_hash st
  let incoming := incoming_config_hash st
  let dstep := deployment_step st.deployment deployment_object st.applied
  (status_update_acts hub.status dstep.1).map fun statusActs =>
    status_init_acts hub
    ++ config_map_acts st.configMap config_map_object
    ++ pvc_acts hub.spec.pvc.enabled st.pvc pvc_object
    ++ dstep.2
    ++ hash_acts current incoming
    ++ statusActs
    ++ service_acts hub.spec.api.enabled st.service service_object
    ++ [.requeue 30]

/-! ## Admission webhook (`ft-operator-webhook/src/admission`) -/

/-- `AdmissionError` (`admission/error.rs`). -/
inductive AdmissionError where
  | invalidKind (got expected : String)
  | invalidVersion (version kind : String)
  | validationError (msg : String)
deriving DecidableEq, Inhabited, Repr

deriving instance DecidableEq for Except

/-- `Display` for `AdmissionError` (the `thiserror` format strings). -/
def AdmissionError.toStr : AdmissionError → String
  | .invalidKind got expected => "invalid kind: " ++ got ++ " expected " ++ expected
  | .invalidVersion version kind => "invalid version: " ++ version ++ " for " ++ kind
  | .validationError msg => "validation error: " ++ msg

/-- Character-separated splitting (Rust `str::split(sep)`): `""` splits
to `[""]`, separators at the ends produce empty parts. -/
def splitCharAux (sep : Char) : List Char → List Char → List String
  | [], acc => [String.mk acc.reverse]
  | c :: cs, acc =>
      if c = sep then String.mk acc.reverse :: splitCharAux sep cs []
      else splitCharAux sep cs (c :: acc)

/-- Rust `str::split(sep)` collected to a list. -/
def splitChar (sep : Char) (s : String) : List String :=
  splitCharAux sep s.data []

/-- `check_key_exists` (`admission/utils.rs`): walk the dotted key path
through nested JSON objects; any missing step yields `false`. -/
def check_key_exists (payload : Jval) (key : String) : Bool :=
  go payload (splitChar '.' key)
where
  /-- The part-by-part walk of the Rust `for` loop. -/
  go : Jval → List String → Bool
  | _, [] => true
  | v, part :: rest =>
      match v.get? part with
      | some next => go next rest
      | none => false

/-- `RESERVED_CONFIG_KEYS` (`admission/bot.rs`). -/
def RESERVED_CONFIG_KEYS : List String :=
  ["config.add_config_files",
   "config.recursive_strategy_search",
   "config.strategy_path",
   "config.strategy",
   "config.bot_name",
   "config.db_url",
   "config.api_server.enabled",
   "config.api_server.listen_ip_address",
   "config.api_server.listen_port",
   "config.api_server.jwt_secret_key",
   "config.api_server.username",
   "config.api_server.password",
   "config.api_server.ws_token",
   "config.telegram.token",
   "config.telegram.chat_id",
   "config.exchange.name",
   "config.exchange.key",
   "config.exchange.secret",
   "config.exchange.password",
   "config.freqai.enabled"]

/-- `RESERVED_ENV_VARS` (`admission/bot.rs`). -/
def RESERVED_ENV_VARS : List String :=
  ["FREQTRADE__STRATEGY",
   "FREQTRADE__STRATEGY_PATH",
   "FREQTRADE__DB_URL",
   "FREQTRADE__BOT_NAME",
   "FREQTRADE__API_SERVER__ENABLED",
   "FREQTRADE__API_SERVER__LISTEN_IP_ADDRESS",
   "FREQTRADE__API_SERVER__LISTEN_PORT",
   "FREQTRADE__API_SERVER__USERNAME",
   "FREQTRADE__API_SERVER__PASSWORD",
   "FREQTRADE__API_SERVER__JWT_SECRET_KEY",
   "FREQTRADE__API_SERVER__WS_TOKEN",
   "FREQTRADE__EXCHANGE__NAME",
   "FREQTRADE__EXCHANGE__KEY",
   "FREQTRADE__EXCHANGE__SECRET",
   "FREQTRADE__EXCHANGE__PASSWORD",
   "FREQTRADE__EXCHANGE__UID",
   "FREQTRADE__TELEGRAM__TOKEN",
   "FREQTRADE__TELEGRAM__CHAT_ID"]

/-- `validate_bot_v1alpha1` (`admission/bot.rs`): deny on the first
reserved config key found in the spec, then on the first reserved
env-var name found by the same dotted-key walk; otherwise allow. -/
def validate_bot_v1alpha1 (spec : Jval) : Except AdmissionError Unit :=
  match RESERVED_CONFIG_KEYS.find? (fun k => check_key_exists spec k) with
  | some key => .error (.validationError ("config key `" ++ key ++ "` is reserved"))
  | none =>
      match RESERVED_ENV_VARS.find? (fun k => check_key_exists spec k) with
      | some key => .error (.validationError ("env var `" ++ key ++ "` is reserved"))
      | none => .ok ()

/-- `kube::core::TypeMeta`. -/
structure TypeMeta where
  apiVersion : String
  kind : String
deriving DecidableEq, Inhabited, Repr

/-- `kube::core::DynamicObject` as the webhook reads it: optional type
metadata plus the remaining JSON payload. -/
structure DynamicObject where
  types : Option TypeMeta := none
  data : Jval := .null

/-- `validate_bot_crd` (`admission/bot.rs`): kind check, group-version
split, then version dispatch.  The code begins with
`payload.types.clone().unwrap()`, so an object without type metadata is
a panic, modelled as `none`. -/
def validate_bot_crd (payload : DynamicObject) :
    Option (Except AdmissionError Unit) :=
  match payload.types with
  | none => none
  | some payloadTypes =>
      if payloadTypes.kind ≠ "Bot" then
        some (.error (.invalidKind payloadTypes.kind "Bot"))
      else
        let version :=
          ((splitChar '/' payloadTypes.apiVersion).getLast?).getD
            payloadTypes.apiVersion
        let jsonSpec := (payload.data.get? "spec").getD .null
        if version = "v1alpha1" then some (validate_bot_v1alpha1 jsonSpec)
        else some (.error (.invalidVersion version "Bot"))

/-- An admission request after the envelope conversion succeeded
(`AdmissionRequest<DynamicObject>`); only the embedded object matters
to the handler. -/
structure AdmissionRequestModel where
  object : Option DynamicObject := none

/-- The handler's answer: an allow or deny review response. -/
inductive AdmissionVerdict where
  | allowed
  | denied (reason : String)
deriving DecidableEq, Inhabited, Repr

/-- `validate_bot_crd_endpoint` (`router/v1/admission.rs`) after a
successful envelope conversion: the code calls
`request.object.unwrap()`, so a request without an object payload is a
panic (`none`); otherwise the validation outcome becomes an allow or a
deny carrying the error's display string. -/
def validate_bot_crd_endpoint (request : AdmissionRequestModel) :
    Option AdmissionVerdict :=
  match request.object with
  | none => none
  | some obj =>
      match validate_bot_crd obj with
      | none => none
      | some (.ok _) => some .allowed
      | some (.error e) => some (.denied e.toStr)

/-! ## Helper lemmas -/

/-- Zipping a list with itself and testing any pair tests each element
against itself. -/
theorem zip_self_any (l : List α) (f : α × α → Bool) :
    (l.zip l).any f = l.any (fun x => f (x, x)) := by
  induction l with
  | nil => rfl
  | cons x xs ih =>
      rw [show (x :: xs).zip (x :: xs) = (x, x) :: xs.zip xs from rfl]
      simp [ih]

/-- `compare_container_ports` does not flag a list against itself. -/
theorem compare_container_ports_refl (p : Option (List ContainerPort)) :
    compare_container_ports p p = false := by
  cases p with
  | none => rfl
  | some l => simp [compare_container_ports, zip_self_any]

/-- `compare_env_vars` does not flag a list against itself. -/
theorem compare_env_vars_refl (v : Option (List EnvVar)) :
    compare_env_vars v v = false := by
  cases v with
  | none => rfl
  | some l => simp [compare_env_vars]

/-- `volumes_are_equal` accepts a volume against itself. -/
theorem volumes_are_equal_refl (v : Volume) : volumes_are_equal v v = true := by
  simp [volumes_are_equal]

/-- `compare_volumes` does not flag a list against itself. -/
theorem compare_volumes_refl (v : Option (List Volume)) :
    compare_volumes v v = false := by
  cases v with
  | none => rfl
  | some l => simp [compare_volumes, zip_self_any, volumes_are_equal_refl]

/-- The per-container drift checks do not flag a container against
itself. -/
theorem container_pair_drift_refl (c : Container) :
    container_pair_drift c c = false := by
  simp [container_pair_drift, compare_container_ports_refl,
    compare_env_vars_refl]

/-- `find?` over a replace-in-place map finds the replacement when the
key is present. -/
theorem find?_map_replace (m : Smap) (k v : String) (h : m.hasKey k) :
    (List.map (fun p => if p.1 = k then (k, v) else p) m).find?
      (fun p => p.1 = k) = some (k, v) := by
  induction m with
  | nil => simp [Smap.hasKey] at h
  | cons p m ih =>
      by_cases hp : p.1 = k
      · simp [List.find?, hp]
      · have hm : Smap.hasKey m k := by
          simpa [Smap.hasKey, List.any_cons, hp] using h
        simp [List.find?, hp, ih hm]

/-- `find?` for a different key is unaffected by a replace-in-place. -/
theorem find?_map_replace_ne (m : Smap) (k v k' : String) (hne : k' ≠ k) :
    (List.map (fun p => if p.1 = k then (k, v) else p) m).find?
      (fun p => p.1 = k')
    = m.find? (fun p => p.1 = k') := by
  induction m with
  | nil => rfl
  | cons p m ih =>
      by_cases hp : p.1 = k
      · simp [List.find?, hp, Ne.symm hne, ih]
      · simp [List.find?, hp, ih]

/-- Looking up the inserted key finds the inserted value. -/
theorem smap_get?_insert_self (m : Smap) (k v : String) :
    (m.insert k v).get? k = some v := by
  unfold Smap.insert
  by_cases h : m.hasKey k
  · rw [if_pos h]
    unfold Smap.get?
    rw [find?_map_replace m k v h]
    rfl
  · rw [if_neg h]
    unfold Smap.get?
    have hm : m.find? (fun p => decide (p.1 = k)) = none := by
      rw [List.find?_eq_none]
      intro p hp
      simp only [decide_eq_true_eq]
      intro hk
      exact h (by
        simp only [Smap.hasKey, List.any_eq_true, decide_eq_true_eq]
        exact ⟨p, hp, hk⟩)
    simp [List.find?_append, hm, List.find?]

/-- Looking up a different key is unaffected by an insert. -/
theorem smap_get?_insert_ne (m : Smap) (k v k' : String) (hne : k' ≠ k) :
    (m.insert k v).get? k' = m.get? k' := by
  unfold Smap.insert
  by_cases h : m.hasKey k
  · rw [if_pos h]
    unfold Smap.get?
    rw [find?_map_replace_ne m k v k' hne]
  · rw [if_neg h]
    unfold Smap.get?
    rw [List.find?_append]
    cases hf : m.find? (fun p => decide (p.1 = k')) with
    | some p => simp [hf]
    | none => simp [hf, List.find?, Ne.symm hne]

/-! ## C2 -/

/-- C2: for every observed DeploymentStatus the derived phase is
`error` when some condition is `Progressing`/`False`; failing that it is
`running` exactly when some condition is `Available`/`True`; and in
every remaining case — including an absent conditions list — it is
`pending`.  The `Progressing=False` rule takes precedence. -/
theorem c2_phase_derivation (ds : DeploymentStatus) :
    (BotPhase.from_deployment_status ds = .error ↔
      ∃ c ∈ ds.conditions.getD [], c.typE = "Progressing" ∧ c.status = "False")
    ∧ ((¬ ∃ c ∈ ds.conditions.getD [], c.typE = "Progressing" ∧ c.status = "False") →
        (BotPhase.from_deployment_status ds = .running ↔
          ∃ c ∈ ds.conditions.getD [], c.typE = "Available" ∧ c.status = "True"))
    ∧ ((¬ ∃ c ∈ ds.conditions.getD [], c.typE = "Progressing" ∧ c.status = "False") →
        (¬ ∃ c ∈ ds.conditions.getD [], c.typE = "Available" ∧ c.status = "True") →
        BotPhase.from_deployment_status ds = .pending) := by
  cases ds with
  | mk conditions =>
      cases conditions with
      | none => simp [BotPhase.from_deployment_status]
      | some l =>
          simp only [BotPhase.from_deployment_status, Option.getD_some]
          by_cases hp : ∃ c ∈ l, c.typE = "Progressing" ∧ c.status = "False"
          · have hb : l.any (fun c => c.typE = "Progressing" && c.status = "False") = true := by
              simpa [List.any_eq_true] using hp
            simp [hb, hp]
          · have hb : l.any (fun c => c.typE = "Progressing" && c.status = "False") = false := by
              simpa [List.any_eq_false, not_exists] using fun c hc =>
                by simpa using fun h1 h2 => hp ⟨c, hc, h1, h2⟩
            by_cases ha : ∃ c ∈ l, c.typE = "Available" ∧ c.status = "True"
            · have hab : l.any (fun c => c.typE = "Available" && c.status = "True") = true := by
                simpa [List.any_eq_true] using ha
              simp [hb, hab, hp, ha]
            · have hab : l.any (fun c => c.typE = "Available" && c.status = "True") = false := by
                simpa [List.any_eq_false, not_exists] using fun c hc =>
                  by simpa using fun h1 h2 => ha ⟨c, hc, h1, h2⟩
              simp [hb, hab, hp, ha]

/-! ## Concrete demonstration values -/

/-- A concrete owner reference for concrete-input theorems. -/
def demoOwner : OwnerReference :=
  { apiVersion := "freqtrade.io/v1alpha1", kind := "Bot", name := "b",
    uid := "uid-1" }

/-- A minimal Bot: required fields set, everything else at the hub
defaults (API enabled on 8080, PVC enabled at 1Gi, no user ports). -/
def demoBot : Bot :=
  { spec := { exchange := "binance"
              strategy := { name := "S", source := some "pass" } } }

/-! ## C4 -/

/-- C4: the drift predicate of each of the four dependent kinds is
reflexive — `has_drifted x x = false` for every ConfigMap,
PersistentVolumeClaim, Deployment and Service value, in particular for
every projected object. -/
theorem c4_drift_reflexive :
    ∀ (cm : ConfigMap) (pvc : PersistentVolumeClaim) (d : Deployment)
      (svc : Service),
      cm.has_drifted cm = false
      ∧ pvc.has_drifted pvc = false
      ∧ d.has_drifted d = false
      ∧ svc.has_drifted svc = false := by
  intro cm pvc d svc
  refine ⟨by simp [ConfigMap.has_drifted], ?_, ?_, ?_⟩
  · cases h : pvc.spec with
    | none => simp [PersistentVolumeClaim.has_drifted, h]
    | some s => simp [PersistentVolumeClaim.has_drifted, h]
  · simp only [Deployment.has_drifted, zip_self_any]
    simp [container_pair_drift_refl, compare_volumes_refl]
    cases d.podSpec.bind (·.nodeSelector) <;>
      cases d.podSpec.bind (·.securityContext) <;> simp
  · simp only [Service.has_drifted, zip_self_any]
    simp

/-! ## C5 -/

/-- The three identifying labels are present in a label map, each bound
to the Bot's name. -/
abbrev meta_has_identifying (labels : Option Smap) (name : String) : Prop :=
  (labels.getD Smap.empty).get? "freqtrade.io/bot-name" = some name
  ∧ (labels.getD Smap.empty).get? "app.kubernetes.io/name" = some name
  ∧ (labels.getD Smap.empty).get? "app.kubernetes.io/instance" = some name

/-- The Deployment label merge always exposes the three identifying
labels, whatever the user label map contains. -/
theorem deployment_labels_has_identifying (user : Option Smap) (name : String) :
    meta_has_identifying (some (deployment_labels user name)) name := by
  cases user with
  | none => exact ⟨rfl, rfl, rfl⟩
  | some u =>
      have e : deployment_labels (some u) name =
          (((((u.insert "freqtrade.io/bot-name" name).insert
              "app.kubernetes.io/name" name).insert
              "app.kubernetes.io/instance" name).insert
              "app.kubernetes.io/component" "bot").insert
              "app.kubernetes.io/part-of" "freqtrade").insert
              "app.kubernetes.io/managed-by" "freqtrade-operator" := rfl
      refine ⟨?_, ?_, ?_⟩ <;>
        simp only [Option.getD_some, e] <;>
        rw [smap_get?_insert_ne _ _ _ _ (by decide),
          smap_get?_insert_ne _ _ _ _ (by decide),
          smap_get?_insert_ne _ _ _ _ (by decide)]
      · rw [smap_get?_insert_ne _ _ _ _ (by decide),
          smap_get?_insert_ne _ _ _ _ (by decide), smap_get?_insert_self]
      · rw [smap_get?_insert_ne _ _ _ _ (by decide), smap_get?_insert_self]
      · rw [smap_get?_insert_self]

/-- C5 counterexample: the projected ConfigMap of a minimal Bot carries
no labels at all, so it does not carry the three identifying labels —
refuting "every projected dependent object's metadata labels contain
these three entries". -/
theorem c5_label_invariant_counterexample :
    ¬ meta_has_identifying
        (ConfigMap.from_hub demoBot "b" "ns" demoOwner {}).metadata.labels "b" := by
  decide

/-- C5 amended: the three identifying labels are guaranteed on the
projected Deployment (metadata and pod-template labels, user labels
never overriding them) and form the Deployment and Service selectors;
the projected ConfigMap carries no labels, and the projected PVC and
Service metadata carry exactly the user-supplied label maps. -/
theorem c5_labels_amended (bot : Bot) (name namespacE : String)
    (ownerRef : OwnerReference) (cfg : AppConfig) :
    meta_has_identifying
        (Deployment.from_hub bot name namespacE ownerRef cfg).metadata.labels name
    ∧ meta_has_identifying
        (((Deployment.from_hub bot name namespacE ownerRef cfg).spec.bind
            (fun s => s.template.metadata)).bind (fun m => m.labels)) name
    ∧ (Deployment.from_hub bot name namespacE ownerRef cfg).spec.bind
        (fun s => s.selector.matchLabels)
        = some (Smap.ofList (identifying_labels name))
    ∧ (Service.from_hub bot name namespacE ownerRef cfg).spec.bind
        (fun s => s.selector) = some (Smap.ofList (identifying_labels name))
    ∧ (ConfigMap.from_hub bot name namespacE ownerRef cfg).metadata.labels = none
    ∧ (PersistentVolumeClaim.from_hub bot name namespacE ownerRef cfg).metadata.labels
        = bot.spec.pvc.labels
    ∧ (Service.from_hub bot name namespacE ownerRef cfg).metadata.labels
        = bot.spec.service.labels := by
  have hensure : ∀ (s : BotServiceSpec) p,
      (BotServiceSpec.ensure_api_port s p).labels = s.labels := by
    intro s p
    unfold BotServiceSpec.ensure_api_port
    split <;> rfl
  refine ⟨?_, ?_, rfl, rfl, rfl, rfl, ?_⟩
  · have e : (Deployment.from_hub bot name namespacE ownerRef cfg).metadata.labels
        = some (deployment_labels bot.spec.deployment.labels name) := rfl
    rw [e]
    exact deployment_labels_has_identifying _ _
  · have e : ((Deployment.from_hub bot name namespacE ownerRef cfg).spec.bind
        (fun s => s.template.metadata)).bind (fun m => m.labels)
        = some (deployment_labels bot.spec.deployment.labels name) := rfl
    rw [e]
    exact deployment_labels_has_identifying _ _
  · show (if bot.spec.api.enabled then
        BotServiceSpec.ensure_api_port bot.spec.service bot.spec.api.port
      else bot.spec.service).labels = bot.spec.service.labels
    split
    · exact hensure _ _
    · rfl

/-! ## C6 -/

/-- A Bot declaring two Service ports (`api` and `metrics`). -/
def demoBot6 : Bot :=
  { spec := { exchange := "binance"
              strategy := { name := "S" }
              service := { ports := [⟨"api", 8080, "api"⟩,
                                     ⟨"metrics", 9090, "metrics"⟩] } } }

/-- An observed Service whose port list is a strict prefix of the
desired projection's (it lacks the `metrics` port), with equal service
type and selector. -/
def c6_observed : Service :=
  { spec := some
      { typE := some "ClusterIP"
        selector := some (Smap.ofList (identifying_labels "b"))
        ports := some [{ name := some "api", port := 8080,
                         targetPort := some (.str "api") }] } }

/-- C6: the Service drift check walks the port lists with `zip` and
never compares their lengths, so an observed Service lacking a desired
port (here: the observed port list is a strict prefix of the desired
one, type and selector equal) yields `has_drifted = false` — the code
misses the mutation the asymmetric rule requires. -/
theorem c6_service_port_prefix_no_drift :
    Service.has_drifted c6_observed
        (Service.from_hub demoBot6 "b" "ns" demoOwner {}) = false
    ∧ ((c6_observed.spec.bind (fun s => s.ports)).getD []).length
        < (((Service.from_hub demoBot6 "b" "ns" demoOwner {}).spec.bind
            (fun s => s.ports)).getD []).length
    ∧ c6_observed.spec.bind (fun s => s.typE)
        = (Service.from_hub demoBot6 "b" "ns" demoOwner {}).spec.bind
            (fun s => s.typE)
    ∧ c6_observed.spec.bind (fun s => s.selector)
        = (Service.from_hub demoBot6 "b" "ns" demoOwner {}).spec.bind
            (fun s => s.selector) := by
  decide

/-! ## C7 -/

/-- A Bot declaring its own `api`-named Service port with number 9999,
different from the API port 8080. -/
def demoBot7 : Bot :=
  { spec := { exchange := "binance"
              strategy := { name := "S" }
              service := { ports := [⟨"api", 9999, "http"⟩] } } }

/-- C7 counterexample: with the API enabled on port 8080 but a
user-declared `api`-named port 9999, the projected Service keeps the
user's port, so its `api`-named port does not carry `spec.api.port` —
refuting "that port's port number equals spec.api.port ... regardless
of what ports the user declared". -/
theorem c7_api_port_counterexample :
    demoBot7.spec.api.enabled = true
    ∧ ¬ (∀ p ∈ ((Service.from_hub demoBot7 "b" "ns" demoOwner {}).spec.bind
          (fun s => s.ports)).getD [],
        p.name = some "api" → p.port = (demoBot7.spec.api.port : Int)) := by
  decide

/-- `ensure_api_port` always leaves at least one `api`-named port. -/
theorem ensure_api_port_has_api (s : BotServiceSpec) (ap : Nat) :
    ∃ q ∈ (s.ensure_api_port ap).ports, q.name = "api" := by
  unfold BotServiceSpec.ensure_api_port
  split
  · rename_i h
    simpa [List.any_eq_true] using h
  · exact ⟨⟨"api", ap, "api"⟩, by simp, rfl⟩

/-- When the user declared no `api`-named port, `ensure_api_port`
appends exactly one. -/
theorem ensure_api_port_of_no_api (s : BotServiceSpec) (ap : Nat)
    (h : ∀ q ∈ s.ports, q.name ≠ "api") :
    (s.ensure_api_port ap).ports = s.ports ++ [⟨"api", ap, "api"⟩] := by
  unfold BotServiceSpec.ensure_api_port
  rw [if_neg]
  intro hc
  obtain ⟨q, hq, hqn⟩ := by simpa [List.any_eq_true] using hc
  exact h q hq hqn

/-- C7 amended: when the API is enabled, the projected Service contains
at least one `api`-named port; and when the user declared no
`api`-named port, the `api`-named ports are exactly the one injected
port with number `spec.api.port` and target port `api`.  (When the user
declares their own `api`-named ports, those are kept unchanged and no
port is injected.) -/
theorem c7_api_port_amended (bot : Bot) (name namespacE : String)
    (ownerRef : OwnerReference) (cfg : AppConfig)
    (henabled : bot.spec.api.enabled = true) :
    (∃ p ∈ ((Service.from_hub bot name namespacE ownerRef cfg).spec.bind
        (fun s => s.ports)).getD [], p.name = some "api")
    ∧ ((∀ q ∈ bot.spec.service.ports, q.name ≠ "api") →
        (((Service.from_hub bot name namespacE ownerRef cfg).spec.bind
            (fun s => s.ports)).getD []).filter (fun p => p.name == some "api")
          = [{ name := some "api", port := (bot.spec.api.port : Int),
               targetPort := some (.str "api") }]) := by
  have hports : ((Service.from_hub bot name namespacE ownerRef cfg).spec.bind
      (fun s => s.ports)).getD []
      = ((if bot.spec.api.enabled then
            bot.spec.service.ensure_api_port bot.spec.api.port
          else bot.spec.service).ports).map (fun p =>
        { name := some p.name, port := (p.port : Int),
          targetPort := some (.str p.targetPort) }) := rfl
  rw [hports, if_pos henabled]
  constructor
  · obtain ⟨q, hq, hqn⟩ :=
      ensure_api_port_has_api bot.spec.service bot.spec.api.port
    exact ⟨_, List.mem_map_of_mem _ hq, by simp [hqn]⟩
  · intro hno
    rw [ensure_api_port_of_no_api bot.spec.service bot.spec.api.port hno]
    rw [List.map_append, List.filter_append]
    have h1 : (bot.spec.service.ports.map (fun p =>
        ({ name := some p.name, port := (p.port : Int),
           targetPort := some (.str p.targetPort) } : ServicePort))).filter
        (fun p => p.name == some "api") = [] := by
      rw [List.filter_eq_nil_iff]
      intro a ha
      obtain ⟨q, hq, rfl⟩ := List.mem_map.mp ha
      simpa using hno q hq
    rw [h1]
    simp

/-- C7 amended, witness: on the minimal Bot (API enabled on 8080, no
user-declared ports) the projected Service's `api`-named ports are
exactly the injected 8080 port. -/
theorem c7_api_port_amended_witness :
    (∃ p ∈ ((Service.from_hub demoBot "b" "ns" demoOwner {}).spec.bind
        (fun s => s.ports)).getD [], p.name = some "api")
    ∧ ((∀ q ∈ demoBot.spec.service.ports, q.name ≠ "api") →
        (((Service.from_hub demoBot "b" "ns" demoOwner {}).spec.bind
            (fun s => s.ports)).getD []).filter (fun p => p.name == some "api")
          = [{ name := some "api", port := (demoBot.spec.api.port : Int),
               targetPort := some (.str "api") }]) :=
  c7_api_port_amended demoBot "b" "ns" demoOwner {} (by decide)

/-! ## Reconcile trace lemmas (for C1 and C3) -/

/-- A successful apply-path reconcile decomposes into the per-step
action lists, in source order. -/
theorem reconcile_bot_eq_some (cfg : AppConfig) (hub : Bot)
    (name namespacE : String) (ownerRef : OwnerReference) (st : ClusterState)
    (acts : List RAction)
    (h : reconcile_bot cfg hub name namespacE ownerRef st = some acts) :
    ∃ statusActs,
      status_update_acts hub.status
        (deployment_step st.deployment
          (Deployment.from_hub hub name namespacE ownerRef cfg) st.applied).1
        = some statusActs
      ∧ acts = status_init_acts hub
          ++ config_map_acts st.configMap
              (ConfigMap.from_hub hub name namespacE ownerRef cfg)
          ++ pvc_acts hub.spec.pvc.enabled st.pvc
              (PersistentVolumeClaim.from_hub hub name namespacE ownerRef cfg)
          ++ (deployment_step st.deployment
              (Deployment.from_hub hub name namespacE ownerRef cfg) st.applied).2
          ++ hash_acts (current_config_hash st) (incoming_config_hash st)
          ++ statusActs
          ++ service_acts hub.spec.api.enabled st.service
              (Service.from_hub hub name namespacE ownerRef cfg)
          ++ [.requeue 30] := by
  simp only [reconcile_bot, Option.map_eq_some'] at h
  obtain ⟨sa, hsa, hacts⟩ := h
  exact ⟨sa, hsa, hacts.symm⟩

/-- Everything the no-status patch step emits is a pending status
patch. -/
theorem mem_status_init_acts (hub : Bot) (x : RAction)
    (h : x ∈ status_init_acts hub) : x = .patchStatus .pending := by
  unfold status_init_acts at h
  split at h <;> simp_all

/-- Everything the ConfigMap step emits is a ConfigMap apply. -/
theorem mem_config_map_acts (e : Option ConfigMap) (o : ConfigMap) (x : RAction)
    (h : x ∈ config_map_acts e o) : x = .applyConfigMap o := by
  unfold config_map_acts at h
  cases e with
  | none => simpa using h
  | some cm =>
      simp only at h
      split at h <;> simp_all

/-- Everything the PVC step emits is a PVC apply or delete. -/
theorem mem_pvc_acts (en : Bool) (e : Option PersistentVolumeClaim)
    (o : PersistentVolumeClaim) (x : RAction)
    (h : x ∈ pvc_acts en e o) : x = .applyPvc o ∨ x = .deletePvc := by
  unfold pvc_acts at h
  split at h
  · cases e with
    | none => simp_all
    | some p =>
        simp only at h
        split at h <;> simp_all
  · cases e with
    | none => simp_all
    | some p => simp_all

/-- Everything the Deployment step emits is a Deployment apply. -/
theorem mem_deployment_step_acts (e : Option Deployment) (o a : Deployment)
    (x : RAction) (h : x ∈ (deployment_step e o a).2) :
    x = .applyDeployment o := by
  unfold deployment_step at h
  cases e with
  | none => simpa using h
  | some d =>
      simp only at h
      split at h <;> simp_all

/-- Everything a successful status re-derivation emits is a status
patch. -/
theorem mem_status_update_acts (s : Option BotStatus) (d : Option Deployment)
    (sa : List RAction) (hsa : status_update_acts s d = some sa) (x : RAction)
    (hx : x ∈ sa) : ∃ ph, x = .patchStatus ph := by
  cases d with
  | none => simp [status_update_acts] at hsa
  | some dd =>
      cases s with
      | none =>
          cases hst : dd.status with
          | none => simp [status_update_acts, hst] at hsa
          | some ds =>
              simp only [status_update_acts, hst, Option.some.injEq] at hsa
              subst hsa
              simp only [List.mem_singleton] at hx
              exact ⟨_, hx⟩
      | some s0 =>
          cases hst : dd.status with
          | none => simp [status_update_acts, hst] at hsa
          | some ds =>
              simp only [status_update_acts, hst] at hsa
              split at hsa <;>
                simp only [Option.some.injEq] at hsa <;> subst hsa
              · simp only [List.mem_singleton] at hx
                exact ⟨_, hx⟩
              · simp at hx

/-- Everything the Service step emits is a Service apply or delete. -/
theorem mem_service_acts (en : Bool) (e : Option Service) (o : Service)
    (x : RAction) (h : x ∈ service_acts en e o) :
    x = .applyService o ∨ x = .deleteService := by
  unfold service_acts at h
  split at h
  · cases e with
    | none => simp_all
    | some s =>
        simp only at h
        split at h <;> simp_all
  · cases e with
    | none => simp_all
    | some s => simp_all

/-- The rollout patch is in the hash step's actions exactly when the
hashes differ and the stored hash is non-empty. -/
theorem rollout_mem_hash_acts (c i : String) :
    RAction.rolloutDeployment ∈ hash_acts c i ↔ (c ≠ i ∧ c ≠ "") := by
  unfold hash_acts
  by_cases h : c = i
  · simp [h]
  · rw [if_pos h]
    by_cases h2 : c = ""
    · subst h2
      simp [h]
    · simp [h, h2]

/-- The hash-annotation patch is in the hash step's actions exactly
when the hashes differ. -/
theorem patch_hash_mem_hash_acts (c i : String) :
    RAction.patchConfigHash i ∈ hash_acts c i ↔ c ≠ i := by
  unfold hash_acts
  by_cases h : c = i
  · simp [h]
  · rw [if_pos h]
    by_cases h2 : c = ""
    · subst h2
      simp [h]
    · simp [h, h2]

/-- The rollout patch appears in a successful reconcile's trace exactly
when the stored and incoming hashes differ and the stored hash is
non-empty. -/
theorem reconcile_rollout_iff (cfg : AppConfig) (hub : Bot)
    (name namespacE : String) (ownerRef : OwnerReference) (st : ClusterState)
    (acts : List RAction)
    (h : reconcile_bot cfg hub name namespacE ownerRef st = some acts) :
    RAction.rolloutDeployment ∈ acts ↔
      (current_config_hash st ≠ incoming_config_hash st
        ∧ current_config_hash st ≠ "") := by
  obtain ⟨sa, hsa, hacts⟩ :=
    reconcile_bot_eq_some cfg hub name namespacE ownerRef st acts h
  subst hacts
  simp only [List.mem_append, List.mem_singleton]
  constructor
  · rintro (((((((h1 | h2) | h3) | h4) | h5) | h6) | h7) | h8)
    · have := mem_status_init_acts _ _ h1
      simp at this
    · have := mem_config_map_acts _ _ _ h2
      simp at this
    · rcases mem_pvc_acts _ _ _ _ h3 with hx | hx <;> simp at hx
    · have := mem_deployment_step_acts _ _ _ _ h4
      simp at this
    · exact (rollout_mem_hash_acts _ _).mp h5
    · obtain ⟨ph, hph⟩ := mem_status_update_acts _ _ _ hsa _ h6
      simp at hph
    · rcases mem_service_acts _ _ _ _ h7 with hx | hx <;> simp at hx
    · simp at h8
  · intro hc
    exact Or.inl (Or.inl (Or.inl (Or.inr
      ((rollout_mem_hash_acts _ _).mpr hc))))

/-- The hash-annotation patch appears in a successful reconcile's trace
exactly when the stored and incoming hashes differ. -/
theorem reconcile_patch_hash_iff (cfg : AppConfig) (hub : Bot)
    (name namespacE : String) (ownerRef : OwnerReference) (st : ClusterState)
    (acts : List RAction)
    (h : reconcile_bot cfg hub name namespacE ownerRef st = some acts) :
    RAction.patchConfigHash (incoming_config_hash st) ∈ acts ↔
      current_config_hash st ≠ incoming_config_hash st := by
  obtain ⟨sa, hsa, hacts⟩ :=
    reconcile_bot_eq_some cfg hub name namespacE ownerRef st acts h
  subst hacts
  simp only [List.mem_append, List.mem_singleton]
  constructor
  · rintro (((((((h1 | h2) | h3) | h4) | h5) | h6) | h7) | h8)
    · have := mem_status_init_acts _ _ h1
      simp at this
    · have := mem_config_map_acts _ _ _ h2
      simp at this
    · rcases mem_pvc_acts _ _ _ _ h3 with hx | hx <;> simp at hx
    · have := mem_deployment_step_acts _ _ _ _ h4
      simp at this
    · exact (patch_hash_mem_hash_acts _ _).mp h5
    · obtain ⟨ph, hph⟩ := mem_status_update_acts _ _ _ hsa _ h6
      simp at hph
    · rcases mem_service_acts _ _ _ _ h7 with hx | hx <;> simp at hx
    · simp at h8
  · intro hc
    exact Or.inl (Or.inl (Or.inl (Or.inr
      ((patch_hash_mem_hash_acts _ _).mpr hc))))

/-! ## C1 -/

/-- C1: in every successful apply-path reconcile, the Deployment's
hash annotation is patched with the incoming hash exactly when the
incoming hash differs from the stored one, and the rollout patch (the
`kube.kubernetes.io/restartedAt` pod-template patch; its RFC-3339
timestamp text is wall-clock and outside the model) is issued exactly
when they differ and the stored hash was non-empty — so no rollout on
the very first materialisation. -/
theorem c1_config_hash_rollout (cfg : AppConfig) (hub : Bot)
    (name namespacE : String) (ownerRef : OwnerReference) (st : ClusterState)
    (acts : List RAction)
    (h : reconcile_bot cfg hub name namespacE ownerRef st = some acts) :
    (RAction.patchConfigHash (incoming_config_hash st) ∈ acts ↔
      incoming_config_hash st ≠ current_config_hash st)
    ∧ (RAction.rolloutDeployment ∈ acts ↔
      (incoming_config_hash st ≠ current_config_hash st
        ∧ current_config_hash st ≠ "")) := by
  refine ⟨?_, ?_⟩
  · rw [reconcile_patch_hash_iff cfg hub name namespacE ownerRef st acts h]
    exact ne_comm
  · rw [reconcile_rollout_iff cfg hub name namespacE ownerRef st acts h]
    exact and_congr_left' ne_comm

/-- An observed Deployment carrying the stored hash `abc` and an
`Available=True` condition. -/
def obsDeployment : Deployment :=
  { metadata := { annotations := some [(configHashKey, "abc")] }
    status := some { conditions := some [⟨"Available", "True"⟩] } }

/-- `demoBot` with a recorded `running` status. -/
def demoBotSt : Bot :=
  { spec := demoBot.spec, status := some { phase := "running" } }

/-- A state with a stored hash `abc` and a fresh hash `h2`. -/
def demoState1 : ClusterState :=
  { deployment := some obsDeployment
    hashResult := .ok "h2"
    applied := { status := some { conditions := some [⟨"Available", "True"⟩] } } }

/-- The action trace of `reconcile_bot` on `demoState1`. -/
def demoActs1 : List RAction :=
  [.applyConfigMap (ConfigMap.from_hub demoBotSt "b" "ns" demoOwner {}),
   .applyPvc (PersistentVolumeClaim.from_hub demoBotSt "b" "ns" demoOwner {}),
   .applyDeployment (Deployment.from_hub demoBotSt "b" "ns" demoOwner {}),
   .patchConfigHash "h2",
   .rolloutDeployment,
   .applyService (Service.from_hub demoBotSt "b" "ns" demoOwner {}),
   .requeue 30]

/-- C1 witness: the protocol evaluated on a concrete reconcile with
stored hash `abc` and incoming hash `h2`. -/
theorem c1_config_hash_rollout_witness :
    (RAction.patchConfigHash (incoming_config_hash demoState1) ∈ demoActs1 ↔
      incoming_config_hash demoState1 ≠ current_config_hash demoState1)
    ∧ (RAction.rolloutDeployment ∈ demoActs1 ↔
      (incoming_config_hash demoState1 ≠ current_config_hash demoState1
        ∧ current_config_hash demoState1 ≠ "")) :=
  c1_config_hash_rollout {} demoBotSt "b" "ns" demoOwner demoState1 demoActs1
    (by decide)

/-! ## C3 -/

/-- `demoState1` with the hash computation failing. -/
def demoState3 : ClusterState := { demoState1 with hashResult := .error "boom" }

/-- C3 counterexample: when the hash computation fails while the stored
hash is the non-empty `abc`, the incoming hash collapses to `""`, the
mismatch path fires, and the reconcile trace does contain the rollout
patch — refuting "no rollout is triggered ... regardless of the hash
currently stored on the Deployment". -/
theorem c3_hash_error_rollout_counterexample :
    demoState3.hashResult = .error "boom"
    ∧ current_config_hash demoState3 = "abc"
    ∧ (reconcile_bot {} demoBotSt "b" "ns" demoOwner demoState3).map
        (fun acts => acts.contains .rolloutDeployment) = some true := by
  decide

/-- C3 amended: when computing the configuration hash fails, the
incoming hash is treated as the empty string, and the rollout patch is
then issued exactly when the stored hash is non-empty — so a hash error
suppresses the rollout only on the very first materialisation, not
regardless of the stored hash. -/
theorem c3_hash_error_amended (cfg : AppConfig) (hub : Bot)
    (name namespacE : String) (ownerRef : OwnerReference) (st : ClusterState)
    (acts : List RAction) (e : String)
    (herr : st.hashResult = .error e)
    (h : reconcile_bot cfg hub name namespacE ownerRef st = some acts) :
    incoming_config_hash st = ""
    ∧ (RAction.rolloutDeployment ∈ acts ↔ current_config_hash st ≠ "") := by
  have hinc : incoming_config_hash st = "" := by
    simp [incoming_config_hash, herr, Except.toOption]
  refine ⟨hinc, ?_⟩
  rw [reconcile_rollout_iff cfg hub name namespacE ownerRef st acts h, hinc]
  exact and_self_iff

/-- The action trace of `reconcile_bot` on `demoState3`. -/
def demoActs3 : List RAction :=
  [.applyConfigMap (ConfigMap.from_hub demoBotSt "b" "ns" demoOwner {}),
   .applyPvc (PersistentVolumeClaim.from_hub demoBotSt "b" "ns" demoOwner {}),
   .applyDeployment (Deployment.from_hub demoBotSt "b" "ns" demoOwner {}),
   .patchConfigHash "",
   .rolloutDeployment,
   .applyService (Service.from_hub demoBotSt "b" "ns" demoOwner {}),
   .requeue 30]

/-- C3 amended, witness: the hash-error behaviour evaluated on the
concrete failing reconcile. -/
theorem c3_hash_error_amended_witness :
    incoming_config_hash demoState3 = ""
    ∧ (RAction.rolloutDeployment ∈ demoActs3 ↔
        current_config_hash demoState3 ≠ "") :=
  c3_hash_error_amended {} demoBotSt "b" "ns" demoOwner demoState3 demoActs3
    "boom" (by decide) (by decide)

/-! ## C8 -/

/-- A Bot spec declaring the reserved env-var name
`FREQTRADE__STRATEGY` as the `name` of a `spec.deployment.env` entry,
and containing no reserved dotted config key. -/
def demoSpec8 : Jval :=
  .obj [("exchange", .str "binance"),
        ("deployment", .obj [("env", .arr [.obj
          [("name", .str "FREQTRADE__STRATEGY"),
           ("value", .str "X")]])])]

/-- C8 counterexample: the validator's dotted-key walk never descends
into the `spec.deployment.env` array, so a v1alpha1 Bot whose env list
names the reserved `FREQTRADE__STRATEGY` is allowed — refuting "the
validator denies the request". -/
theorem c8_env_list_allowed_counterexample :
    validate_bot_crd
      { types := some ⟨"freqtrade.io/v1alpha1", "Bot"⟩
        data := .obj [("spec", demoSpec8)] } = some (.ok ()) := by
  decide

/-- C8 amended: for a recognised v1alpha1 Bot, the validator denies
with a reason naming a reserved env var exactly when some reserved
env-var name is reachable as a dotted key path from the spec root (for
example a literal top-level spec key `FREQTRADE__STRATEGY`) and no
reserved config key is present; a reserved name appearing only as the
`name` value of a `spec.deployment.env` entry is not detected. -/
theorem c8_reserved_env_key_amended (spec : Jval)
    (hcfg : ∀ k ∈ RESERVED_CONFIG_KEYS, check_key_exists spec k = false)
    (e : String) (he : e ∈ RESERVED_ENV_VARS)
    (hk : check_key_exists spec e = true) :
    ∃ j ∈ RESERVED_ENV_VARS, check_key_exists spec j = true
      ∧ validate_bot_v1alpha1 spec
          = .error (.validationError ("env var `" ++ j ++ "` is reserved"))
      ∧ validate_bot_crd
          { types := some ⟨"freqtrade.io/v1alpha1", "Bot"⟩
            data := .obj [("spec", spec)] }
          = some (.error (.validationError
              ("env var `" ++ j ++ "` is reserved"))) := by
  have h1 : RESERVED_CONFIG_KEYS.find? (fun k => check_key_exists spec k) = none :=
    List.find?_eq_none.mpr (fun k hkm => by simp [hcfg k hkm])
  have hcrd : validate_bot_crd
      { types := some ⟨"freqtrade.io/v1alpha1", "Bot"⟩
        data := .obj [("spec", spec)] } = some (validate_bot_v1alpha1 spec) := rfl
  cases hf : RESERVED_ENV_VARS.find? (fun k => check_key_exists spec k) with
  | none =>
      exfalso
      have := List.find?_eq_none.mp hf e he
      simp [hk] at this
  | some j =>
      refine ⟨j, List.mem_of_find?_eq_some hf, List.find?_some hf, ?_, ?_⟩
      · unfold validate_bot_v1alpha1
        rw [h1, hf]
      · rw [hcrd]
        unfold validate_bot_v1alpha1
        rw [h1, hf]

/-- C8 amended, witness: a spec whose top level carries the literal key
`FREQTRADE__STRATEGY` is denied with a reason naming it. -/
theorem c8_reserved_env_key_amended_witness :
    ∃ j ∈ RESERVED_ENV_VARS,
      check_key_exists (.obj [("FREQTRADE__STRATEGY", .str "X")]) j = true
      ∧ validate_bot_v1alpha1 (.obj [("FREQTRADE__STRATEGY", .str "X")])
          = .error (.validationError ("env var `" ++ j ++ "` is reserved"))
      ∧ validate_bot_crd
          { types := some ⟨"freqtrade.io/v1alpha1", "Bot"⟩
            data := .obj [("spec", .obj [("FREQTRADE__STRATEGY", .str "X")])] }
          = some (.error (.validationError
              ("env var `" ++ j ++ "` is reserved"))) :=
  c8_reserved_env_key_amended (.obj [("FREQTRADE__STRATEGY", .str "X")])
    (by decide) "FREQTRADE__STRATEGY" (by decide) (by decide)

/-! ## C9 -/

/-- C9: the admission handler is not total — it panics (modelled as
`none`) both on a well-formed review whose request carries no object
payload and on one whose embedded object lacks type metadata
(`request.object.unwrap()` and `payload.types.clone().unwrap()` in the
source), instead of answering with an allow or deny review. -/
theorem c9_webhook_panic :
    validate_bot_crd_endpoint { object := none } = none
    ∧ validate_bot_crd_endpoint
        { object := some
            { types := none
              data := .obj [("spec", .obj [("exchange", .str "binance")])] } }
        = none := by
  exact ⟨rfl, rfl⟩

/-! ## C10 -/

/-- A fresh cluster: no dependents exist yet, and the Deployment the
API server returns from the first apply carries no status
sub-resource. -/
def demoState10 : ClusterState := { hashResult := .ok "h1" }

/-- C10: a reachable apply-path input on which `reconcile_bot` panics —
the Bot has no status yet (so the phase must be re-derived) and the
freshly applied Deployment has no status sub-resource, so the phase
re-derivation unwraps a `None` Deployment status; the embedding returns
`none` (panic) instead of an action trace. -/
theorem c10_reconcile_status_panic :
    demoBot.status = none
    ∧ demoState10.deployment = none
    ∧ demoState10.applied.status = none
    ∧ reconcile_bot {} demoBot "b" "ns" demoOwner demoState10 = none := by
  decide

end FtOp
